import Mathlib

/-!
Verification of the self-message lifecycle manager and web-search tool of
the LocalTopSH repository, as a shallow embedding of
src/tools/memory.ts (manage_message part) and src/tools/web.ts.
-/

set_option maxHeartbeats 1000000

/-- Maximum messages kept per chat (MAX_STORED in memory.ts). -/
def MAX_STORED : Nat := 20

/-- The state of the module-level map recentMessages, modelled as a total
function from chat id to the stored list, with the absent-key case mapped to
the empty list (matching recentMessages.get(chatId) || []). -/
structure MemState where
  recentMessages : Int → List Int

/-- The fresh state with no recorded messages for any chat. -/
def emptyMemState : MemState := ⟨fun _ => []⟩

/-- Map update recentMessages.set(chatId, messages). -/
def MemState.set (s : MemState) (chatId : Int) (msgs : List Int) : MemState :=
  ⟨fun c => if c = chatId then msgs else s.recentMessages c⟩

/-- Embedding of recordBotMessage: push, evict the oldest when over capacity,
store back. -/
def recordBotMessage (s : MemState) (chatId messageId : Int) : MemState :=
  let messages := s.recentMessages chatId
  let messages := messages ++ [messageId]
  let messages := if messages.length > MAX_STORED then messages.tail else messages
  s.set chatId messages

/-- Embedding of getRecentMessages. -/
def getRecentMessages (s : MemState) (chatId : Int) : List Int :=
  s.recentMessages chatId

/-- Repeated recording of a sequence of message ids on one chat. -/
def recordMany (s : MemState) (chatId : Int) (ids : List Int) : MemState :=
  ids.foldl (fun st id => recordBotMessage st chatId id) s

/-- Outcome of a gateway callback invocation: the promise resolves to a
boolean, or it throws with a message. -/
inductive GResult
  | ok (b : Bool)
  | thrown (msg : String)
deriving DecidableEq

/-- Arguments of the manage_message action. -/
structure MMArgs where
  action : String
  index : Option Int
  new_text : Option String
deriving DecidableEq

/-- The structured result shape of a tool execution. -/
structure ExecResult where
  success : Bool
  output : Option String
  error : Option String
deriving DecidableEq

/-- A record of one gateway invocation (observable side effect). -/
inductive GCall
  | del (chatId msgId : Int)
  | edit (chatId msgId : Int) (text : String)
deriving DecidableEq

/-- Embedding of execute in memory.ts (manage_message). The two module-level
callbacks are passed as optional pure functions whose outcome (resolve or
throw) is a GResult; the returned triple is the result, the new store state,
and the list of gateway invocations performed. -/
def executeManage
    (deleteMessageCallback : Option (Int → Int → GResult))
    (editMessageCallback : Option (Int → Int → String → GResult))
    (args : MMArgs) (chatId : Int) (s : MemState) :
    ExecResult × MemState × List GCall :=
  let messages := s.recentMessages chatId
  if messages.length = 0 then
    (⟨false, none, some "No recent messages to manage"⟩, s, [])
  else if args.action = "delete_last" then
    match deleteMessageCallback with
    | none => (⟨false, none, some "Delete not configured"⟩, s, [])
    | some cb =>
      let msgId := messages.getD (messages.length - 1) 0
      match cb chatId msgId with
      | GResult.ok true =>
        (⟨true, some "Deleted last message", none⟩,
         s.set chatId messages.dropLast, [GCall.del chatId msgId])
      | GResult.ok false =>
        (⟨false, none, some "Failed to delete (maybe already deleted or too old)"⟩,
         s, [GCall.del chatId msgId])
      | GResult.thrown m =>
        (⟨false, none, some ("Delete failed: " ++ m)⟩, s, [GCall.del chatId msgId])
  else if args.action = "delete_by_index" then
    match deleteMessageCallback with
    | none => (⟨false, none, some "Delete not configured"⟩, s, [])
    | some cb =>
      let idx0 : Int := args.index.getD (-1)
      let idx : Int := if idx0 < 0 then (messages.length : Int) + idx0 else idx0
      if idx < 0 ∨ (messages.length : Int) ≤ idx then
        (⟨false, none, some ("Invalid index. Have " ++ toString messages.length ++
          " messages (0-" ++ toString (messages.length - 1) ++ ")")⟩, s, [])
      else
        let msgId := messages.getD idx.toNat 0
        match cb chatId msgId with
        | GResult.ok true =>
          (⟨true, some ("Deleted message at index " ++ toString idx), none⟩,
           s.set chatId (messages.take idx.toNat ++ messages.drop (idx.toNat + 1)),
           [GCall.del chatId msgId])
        | GResult.ok false =>
          (⟨false, none, some "Failed to delete"⟩, s, [GCall.del chatId msgId])
        | GResult.thrown m =>
          (⟨false, none, some ("Delete failed: " ++ m)⟩, s, [GCall.del chatId msgId])
  else if args.action = "edit_last" then
    match editMessageCallback with
    | none => (⟨false, none, some "Edit not configured"⟩, s, [])
    | some cb =>
      if args.new_text.getD "" = "" then
        (⟨false, none, some "new_text required for edit"⟩, s, [])
      else
        let msgId := messages.getD (messages.length - 1) 0
        let newText := args.new_text.getD ""
        match cb chatId msgId newText with
        | GResult.ok true =>
          (⟨true, some "Edited last message", none⟩, s, [GCall.edit chatId msgId newText])
        | GResult.ok false =>
          (⟨false, none, some "Failed to edit (maybe too old or contains media)"⟩,
           s, [GCall.edit chatId msgId newText])
        | GResult.thrown m =>
          (⟨false, none, some ("Edit failed: " ++ m)⟩, s, [GCall.edit chatId msgId newText])
  else
    (⟨false, none, some ("Unknown action: " ++ args.action)⟩, s, [])

/-- A single web search result as returned by a provider (web.ts). -/
structure SearchResult where
  title : String
  url : String
  content : String
  date : Option String
deriving DecidableEq

/-- Outcome of one provider call: a resolved result list, or a thrown error. -/
inductive SearchOutcome
  | ok (results : List SearchResult)
  | err (msg : String)
deriving DecidableEq

/-- Observable trace of one executeSearchWeb run: its result and which
providers were contacted. -/
structure SearchTrace where
  result : ExecResult
  zaiCalled : Bool
  tavilyCalled : Bool
deriving DecidableEq

/-- JavaScript truthiness of an optional api-key string: configured means
present and non-empty. -/
def truthyKey (k : Option String) : Bool := k.getD "" ≠ ""

/-- Rendering of one search result, from the map in executeSearchWeb:
1-indexed header, optional date, url, content truncated to 400 characters. -/
def formatSearchResult (i : Nat) (r : SearchResult) : String :=
  let date := if r.date.getD "" = "" then "" else " (" ++ r.date.getD "" ++ ")"
  "[" ++ toString (i + 1) ++ "] " ++ r.title ++ date ++ "\n" ++ r.url ++ "\n" ++
    r.content.take 400

/-- Rendering of the full result list: the empty-list sentinel, or the
newline-delimited joined entries. -/
def renderSearchOutput (results : List SearchResult) : ExecResult :=
  if results.length = 0 then ⟨true, some "(no results)", none⟩
  else ⟨true, some (String.intercalate "\n\n" (results.mapIdx formatSearchResult)), none⟩

/-- Embedding of executeSearchWeb: Z.AI primary when its key is truthy, Tavily
fallback on a thrown primary (rethrow when no fallback key), Tavily directly
when only its key is truthy, configuration error when neither; the outer
try/catch converts any throw into a failure result. The provider network
outcomes are passed in as parameters. -/
def executeSearchWeb (zaiApiKey tavilyApiKey : Option String)
    (zaiOutcome tavilyOutcome : SearchOutcome) : SearchTrace :=
  if truthyKey zaiApiKey then
    match zaiOutcome with
    | SearchOutcome.ok results =>
      ⟨renderSearchOutput results, true, false⟩
    | SearchOutcome.err e =>
      if truthyKey tavilyApiKey then
        match tavilyOutcome with
        | SearchOutcome.ok results => ⟨renderSearchOutput results, true, true⟩
        | SearchOutcome.err e2 => ⟨⟨false, none, some e2⟩, true, true⟩
      else
        ⟨⟨false, none, some e⟩, true, false⟩
  else if truthyKey tavilyApiKey then
    match tavilyOutcome with
    | SearchOutcome.ok results => ⟨renderSearchOutput results, false, true⟩
    | SearchOutcome.err e2 => ⟨⟨false, none, some e2⟩, false, true⟩
  else
    ⟨⟨false, none, some "No search API configured (ZAI_API_KEY or TAVILY_API_KEY)"⟩,
     false, false⟩

/-- A concrete store state used by witnesses: chat 5 holds [201, 202, 203]. -/
def sampleState : MemState := ⟨fun c => if c = 5 then [201, 202, 203] else []⟩

/-- A concrete search result used by witnesses. -/
def sampleResult : SearchResult := ⟨"T", "u", "c", none⟩

/-- Claim C5: any manage_message operation on an empty history fails with the
NoHistory error message, performs no gateway call and leaves the state
unchanged, regardless of which gateway capabilities are configured (the
non-empty-history check precedes the gateway-configured check). -/
theorem manage_empty_history_no_history (dcb : Option (Int → Int → GResult))
    (ecb : Option (Int → Int → String → GResult)) (args : MMArgs) (chatId : Int)
    (s : MemState) (h : getRecentMessages s chatId = []) :
    executeManage dcb ecb args chatId s =
      (⟨false, none, some "No recent messages to manage"⟩, s, []) := by
  rw [getRecentMessages] at h
  unfold executeManage
  simp [h]

/-- Witness for C5: the fresh state with no gateway configured. -/
theorem manage_empty_history_no_history_witness :
    getRecentMessages emptyMemState 0 = [] ∧
    executeManage none none ⟨"delete_last", none, none⟩ 0 emptyMemState =
      (⟨false, none, some "No recent messages to manage"⟩, emptyMemState, []) :=
  ⟨rfl, manage_empty_history_no_history none none ⟨"delete_last", none, none⟩ 0
    emptyMemState rfl⟩

/-- Claim C6: edit_last never mutates the store, whatever the history, the
configured callbacks, the arguments, or the gateway outcome. -/
theorem edit_last_never_mutates (dcb : Option (Int → Int → GResult))
    (ecb : Option (Int → Int → String → GResult)) (i : Option Int)
    (t : Option String) (chatId : Int) (s : MemState) :
    (executeManage dcb ecb ⟨"edit_last", i, t⟩ chatId s).2.1 = s := by
  simp only [executeManage]
  repeat' split
  all_goals simp_all

/-- Claim C10: delete_by_index with the index argument omitted behaves exactly
as delete_by_index with index -1: same result, same state, same gateway calls. -/
theorem delete_by_index_default_newest (dcb : Option (Int → Int → GResult))
    (ecb : Option (Int → Int → String → GResult)) (t : Option String)
    (chatId : Int) (s : MemState) :
    executeManage dcb ecb ⟨"delete_by_index", none, t⟩ chatId s =
      executeManage dcb ecb ⟨"delete_by_index", some (-1), t⟩ chatId s := rfl

/-- Claim C7: edit_last with a missing or empty new_text on a non-empty
history, with the edit gateway configured, fails with the MissingContent error
and performs no gateway call. -/
theorem edit_last_missing_content (dcb : Option (Int → Int → GResult))
    (cb : Int → Int → String → GResult) (i : Option Int) (t : Option String)
    (chatId : Int) (s : MemState)
    (hne : s.recentMessages chatId ≠ []) (ht : t.getD "" = "") :
    executeManage dcb (some cb) ⟨"edit_last", i, t⟩ chatId s =
      (⟨false, none, some "new_text required for edit"⟩, s, []) := by
  unfold executeManage
  simp [ht, List.length_eq_zero, hne]

/-- Witness for C7: non-empty sample history, new_text absent. -/
theorem edit_last_missing_content_witness :
    sampleState.recentMessages 5 ≠ [] ∧ ((none : Option String).getD "" = "") ∧
    executeManage none (some (fun _ _ _ => GResult.ok true))
        ⟨"edit_last", none, none⟩ 5 sampleState =
      (⟨false, none, some "new_text required for edit"⟩, sampleState, []) :=
  ⟨by decide, rfl,
   edit_last_missing_content none (fun _ _ _ => GResult.ok true) none none 5
     sampleState (by decide) rfl⟩

/-- Claim C8: for every invocation of manage_message, the result populates
output exactly when success is true and error exactly when success is false. -/
theorem manage_result_exclusive (dcb : Option (Int → Int → GResult))
    (ecb : Option (Int → Int → String → GResult)) (args : MMArgs)
    (chatId : Int) (s : MemState) :
    (executeManage dcb ecb args chatId s).1.output.isSome =
        (executeManage dcb ecb args chatId s).1.success ∧
      (executeManage dcb ecb args chatId s).1.error.isSome =
        !(executeManage dcb ecb args chatId s).1.success := by
  simp only [executeManage]
  repeat' split
  all_goals simp

/-- One recordBotMessage step, seen through the stored list of its chat. -/
lemma recordBotMessage_get (s : MemState) (c id : Int) :
    (recordBotMessage s c id).recentMessages c =
      if (s.recentMessages c ++ [id]).length > MAX_STORED then (s.recentMessages c ++ [id]).tail
      else s.recentMessages c ++ [id] := by
  simp [recordBotMessage, MemState.set]

/-- Generalized FIFO law: starting from any in-capacity list, a run of records
leaves the suffix of the concatenation that fits the capacity. -/
lemma recordMany_get (ids : List Int) : ∀ (s : MemState) (c : Int),
    (s.recentMessages c).length ≤ MAX_STORED →
    (recordMany s c ids).recentMessages c =
      (s.recentMessages c ++ ids).drop
        ((s.recentMessages c).length + ids.length - MAX_STORED) := by
  induction ids with
  | nil =>
    intro s c h
    simp only [List.length_nil, List.append_nil, Nat.add_zero]
    rw [Nat.sub_eq_zero_of_le h]
    simp [recordMany]
  | cons a ids ih =>
    intro s c h
    have hstep : recordMany s c (a :: ids) = recordMany (recordBotMessage s c a) c ids := rfl
    rw [hstep]
    by_cases hfull : (s.recentMessages c).length = MAX_STORED
    · -- capacity reached: the oldest entry is evicted
      cases hm : s.recentMessages c with
      | nil => rw [hm] at hfull; simp [MAX_STORED] at hfull
      | cons hd tl =>
        have hget : (recordBotMessage s c a).recentMessages c = tl ++ [a] := by
          rw [recordBotMessage_get, hm]
          have hgt : ((hd :: tl) ++ [a]).length > MAX_STORED := by
            rw [hm] at hfull
            simp only [List.length_append, List.length_cons,
              List.length_singleton, List.length_nil] at *
            omega
          rw [if_pos hgt]
          simp
        rw [hm] at hfull
        simp only [List.length_cons] at hfull
        have hlen : (tl ++ [a]).length ≤ MAX_STORED := by
          simp only [List.length_append, List.length_singleton, List.length_nil]
          omega
        have hih := ih (recordBotMessage s c a) c (by rw [hget]; exact hlen)
        rw [hget] at hih
        rw [hih]
        have hL : (tl ++ [a]).length + ids.length - MAX_STORED = ids.length := by
          simp only [List.length_append, List.length_singleton, List.length_nil]
          omega
        have hR : (hd :: tl).length + (a :: ids).length - MAX_STORED = ids.length + 1 := by
          simp only [List.length_cons]
          omega
        rw [hL, hR]
        have h1 : (tl ++ [a]) ++ ids = tl ++ (a :: ids) := by simp
        rw [h1, List.cons_append, List.drop_succ_cons]
    · -- still under capacity: plain append
      have hlt : (s.recentMessages c).length < MAX_STORED := lt_of_le_of_ne h hfull
      have hget : (recordBotMessage s c a).recentMessages c = s.recentMessages c ++ [a] := by
        rw [recordBotMessage_get]
        rw [if_neg]
        simp only [List.length_append, List.length_singleton, List.length_nil]
        omega
      have hih := ih (recordBotMessage s c a) c
        (by rw [hget]
            simp only [List.length_append, List.length_singleton, List.length_nil]
            omega)
      rw [hget] at hih
      rw [hih]
      have h1 : (s.recentMessages c ++ [a]) ++ ids = s.recentMessages c ++ (a :: ids) := by simp
      have hL : (s.recentMessages c ++ [a]).length + ids.length - MAX_STORED
          = (s.recentMessages c).length + (a :: ids).length - MAX_STORED := by
        simp only [List.length_append, List.length_singleton,
          List.length_nil, List.length_cons]
        omega
      rw [h1, hL]

/-- Claim C1: on a fresh key, after recording a sequence of ids, the stored
history has length min of N and 20 and equals the last min of N and 20 ids in
send order (FIFO eviction on overflow). -/
theorem record_history_fifo (s : MemState) (c : Int) (ids : List Int)
    (h : getRecentMessages s c = []) :
    (getRecentMessages (recordMany s c ids) c).length = min ids.length MAX_STORED ∧
    getRecentMessages (recordMany s c ids) c =
      ids.drop (ids.length - min ids.length MAX_STORED) := by
  have h' : s.recentMessages c = [] := h
  have key := recordMany_get ids s c (by rw [h']; simp)
  rw [h'] at key
  simp only [List.nil_append, List.length_nil, Nat.zero_add] at key
  rw [getRecentMessages, key]
  constructor
  · rw [List.length_drop]
    simp only [MAX_STORED]
    omega
  · congr 1
    simp only [MAX_STORED]
    omega

/-- Witness for C1: recording three ids on the fresh state keeps all three. -/
theorem record_history_fifo_witness :
    getRecentMessages emptyMemState 0 = [] ∧
    ((getRecentMessages (recordMany emptyMemState 0 [1, 2, 3]) 0).length =
        min ([1, 2, 3] : List Int).length MAX_STORED ∧
      getRecentMessages (recordMany emptyMemState 0 [1, 2, 3]) 0 =
        ([1, 2, 3] : List Int).drop (([1, 2, 3] : List Int).length -
          min ([1, 2, 3] : List Int).length MAX_STORED)) :=
  ⟨rfl, record_history_fifo emptyMemState 0 [1, 2, 3] rfl⟩

/-- Claim C2: delete_by_index resolves a negative index as length plus index,
proceeds (invoking the delete gateway on the resolved record) exactly when the
resolved position is in bounds, and otherwise fails with the IndexOutOfRange
message naming bounds 0 to length minus 1, without any gateway call and
without mutating the store. Stated for the path that reaches index
resolution: non-empty history and a configured delete gateway. -/
theorem delete_by_index_bounds (cb : Int → Int → GResult)
    (ecb : Option (Int → Int → String → GResult)) (idx : Int) (t : Option String)
    (chatId : Int) (s : MemState)
    (hne : (s.recentMessages chatId).length ≠ 0) :
    ((((s.recentMessages chatId).length : Int) ≤ idx ∨
        idx < -((s.recentMessages chatId).length : Int)) →
      executeManage (some cb) ecb ⟨"delete_by_index", some idx, t⟩ chatId s =
        (⟨false, none, some ("Invalid index. Have " ++
            toString (s.recentMessages chatId).length ++ " messages (0-" ++
            toString ((s.recentMessages chatId).length - 1) ++ ")")⟩, s, [])) ∧
    ((0 ≤ (if idx < 0 then ((s.recentMessages chatId).length : Int) + idx else idx) ∧
        (if idx < 0 then ((s.recentMessages chatId).length : Int) + idx else idx) <
          ((s.recentMessages chatId).length : Int)) →
      (executeManage (some cb) ecb ⟨"delete_by_index", some idx, t⟩ chatId s).2.2 =
        [GCall.del chatId ((s.recentMessages chatId).getD
          (if idx < 0 then ((s.recentMessages chatId).length : Int) + idx
           else idx).toNat 0)]) := by
  constructor
  · intro hout
    simp [executeManage, hne]
    intro h0 h1
    exfalso
    by_cases hneg : idx < 0
    · simp only [if_pos hneg] at h0 h1
      rcases hout with h | h <;> omega
    · simp only [if_neg hneg] at h0 h1
      rcases hout with h | h <;> omega
  · intro hin
    obtain ⟨h0, h1⟩ := hin
    simp [executeManage, hne]
    rw [if_neg]
    · split <;> rfl
    · by_cases hneg : idx < 0
      · simp only [if_pos hneg] at h0 h1 ⊢
        omega
      · simp only [if_neg hneg] at h0 h1 ⊢
        omega

/-- Claim C3: for both delete operations, a gateway call returning false or
throwing leaves the history exactly unchanged and reports failure, while a
gateway call returning true removes exactly the targeted record, preserving
the order of the rest (splice for delete_by_index, pop for delete_last). -/
theorem delete_gateway_reconciliation (cb : Int → Int → GResult)
    (ecb : Option (Int → Int → String → GResult)) (idx : Int) (t1 t2 : Option String)
    (chatId : Int) (s : MemState) (m : String)
    (hne : (s.recentMessages chatId).length ≠ 0)
    (h0 : 0 ≤ (if idx < 0 then ((s.recentMessages chatId).length : Int) + idx else idx))
    (h1 : (if idx < 0 then ((s.recentMessages chatId).length : Int) + idx else idx) <
      ((s.recentMessages chatId).length : Int)) :
    (cb chatId ((s.recentMessages chatId).getD ((s.recentMessages chatId).length - 1) 0) =
        GResult.ok false →
      executeManage (some cb) ecb ⟨"delete_last", none, t1⟩ chatId s =
        (⟨false, none, some "Failed to delete (maybe already deleted or too old)"⟩, s,
         [GCall.del chatId
           ((s.recentMessages chatId).getD ((s.recentMessages chatId).length - 1) 0)])) ∧
    (cb chatId ((s.recentMessages chatId).getD ((s.recentMessages chatId).length - 1) 0) =
        GResult.thrown m →
      executeManage (some cb) ecb ⟨"delete_last", none, t1⟩ chatId s =
        (⟨false, none, some ("Delete failed: " ++ m)⟩, s,
         [GCall.del chatId
           ((s.recentMessages chatId).getD ((s.recentMessages chatId).length - 1) 0)])) ∧
    (cb chatId ((s.recentMessages chatId).getD ((s.recentMessages chatId).length - 1) 0) =
        GResult.ok true →
      executeManage (some cb) ecb ⟨"delete_last", none, t1⟩ chatId s =
        (⟨true, some "Deleted last message", none⟩,
         s.set chatId (s.recentMessages chatId).dropLast,
         [GCall.del chatId
           ((s.recentMessages chatId).getD ((s.recentMessages chatId).length - 1) 0)])) ∧
    (cb chatId ((s.recentMessages chatId).getD
        (if idx < 0 then ((s.recentMessages chatId).length : Int) + idx else idx).toNat 0) =
        GResult.ok false →
      executeManage (some cb) ecb ⟨"delete_by_index", some idx, t2⟩ chatId s =
        (⟨false, none, some "Failed to delete"⟩, s,
         [GCall.del chatId ((s.recentMessages chatId).getD
           (if idx < 0 then ((s.recentMessages chatId).length : Int) + idx else idx).toNat 0)])) ∧
    (cb chatId ((s.recentMessages chatId).getD
        (if idx < 0 then ((s.recentMessages chatId).length : Int) + idx else idx).toNat 0) =
        GResult.thrown m →
      executeManage (some cb) ecb ⟨"delete_by_index", some idx, t2⟩ chatId s =
        (⟨false, none, some ("Delete failed: " ++ m)⟩, s,
         [GCall.del chatId ((s.recentMessages chatId).getD
           (if idx < 0 then ((s.recentMessages chatId).length : Int) + idx else idx).toNat 0)])) ∧
    (cb chatId ((s.recentMessages chatId).getD
        (if idx < 0 then ((s.recentMessages chatId).length : Int) + idx else idx).toNat 0) =
        GResult.ok true →
      executeManage (some cb) ecb ⟨"delete_by_index", some idx, t2⟩ chatId s =
        (⟨true, some ("Deleted message at index " ++
           toString (if idx < 0 then ((s.recentMessages chatId).length : Int) + idx else idx)),
          none⟩,
         s.set chatId ((s.recentMessages chatId).take
             (if idx < 0 then ((s.recentMessages chatId).length : Int) + idx else idx).toNat ++
           (s.recentMessages chatId).drop
             ((if idx < 0 then ((s.recentMessages chatId).length : Int) + idx else idx).toNat + 1)),
         [GCall.del chatId ((s.recentMessages chatId).getD
           (if idx < 0 then ((s.recentMessages chatId).length : Int) + idx else idx).toNat 0)])) := by
  refine ⟨?_, ?_, ?_, ?_, ?_, ?_⟩ <;> intro hcb <;> simp at hcb
  case refine_1 => simp [executeManage, hne, hcb]
  case refine_2 => simp [executeManage, hne, hcb]
  case refine_3 => simp [executeManage, hne, hcb]
  case refine_4 =>
    simp [executeManage, hne]
    rw [if_neg]
    · simp [hcb]
    · by_cases hneg : idx < 0
      · simp only [if_pos hneg] at h0 h1 ⊢
        omega
      · simp only [if_neg hneg] at h0 h1 ⊢
        omega
  case refine_5 =>
    simp [executeManage, hne]
    rw [if_neg]
    · simp [hcb]
    · by_cases hneg : idx < 0
      · simp only [if_pos hneg] at h0 h1 ⊢
        omega
      · simp only [if_neg hneg] at h0 h1 ⊢
        omega
  case refine_6 =>
    simp [executeManage, hne]
    rw [if_neg]
    · simp [hcb]
    · by_cases hneg : idx < 0
      · simp only [if_pos hneg] at h0 h1 ⊢
        omega
      · simp only [if_neg hneg] at h0 h1 ⊢
        omega

/-- Claim C4: on the same history, delete_by_index with index -1 and
delete_last issue the same single gateway call on the newest record, and on
gateway success leave the store in the same state. -/
theorem delete_neg_one_equiv (cb : Int → Int → GResult)
    (ecb : Option (Int → Int → String → GResult)) (t1 t2 : Option String)
    (chatId : Int) (s : MemState)
    (hne : (s.recentMessages chatId).length ≠ 0) :
    (executeManage (some cb) ecb ⟨"delete_by_index", some (-1), t1⟩ chatId s).2.2 =
        [GCall.del chatId
          ((s.recentMessages chatId).getD ((s.recentMessages chatId).length - 1) 0)] ∧
    (executeManage (some cb) ecb ⟨"delete_last", none, t2⟩ chatId s).2.2 =
        [GCall.del chatId
          ((s.recentMessages chatId).getD ((s.recentMessages chatId).length - 1) 0)] ∧
    (cb chatId ((s.recentMessages chatId).getD ((s.recentMessages chatId).length - 1) 0) =
        GResult.ok true →
      (executeManage (some cb) ecb ⟨"delete_by_index", some (-1), t1⟩ chatId s).2.1 =
        (executeManage (some cb) ecb ⟨"delete_last", none, t2⟩ chatId s).2.1) := by
  have hL : 0 < (s.recentMessages chatId).length := Nat.pos_of_ne_zero hne
  have htn : ((↑(s.recentMessages chatId).length + (-1 : Int))).toNat =
      (s.recentMessages chatId).length - 1 := by omega
  refine ⟨?_, ?_, ?_⟩
  · simp [executeManage, hne]
    rw [htn]
    split <;> rfl
  · simp [executeManage, hne]
    split <;> rfl
  · intro hcb
    simp at hcb
    simp [executeManage, hne]
    rw [htn, hcb]
    have hsplice : (s.recentMessages chatId).take ((s.recentMessages chatId).length - 1) ++
        (s.recentMessages chatId).drop ((s.recentMessages chatId).length - 1 + 1) =
        (s.recentMessages chatId).dropLast := by
      have h2 : (s.recentMessages chatId).length - 1 + 1 = (s.recentMessages chatId).length := by
        omega
      rw [h2, List.drop_length, List.append_nil, List.dropLast_eq_take]
    rw [hsplice]

/-- Claim C9: the primary provider is tried first when its credential is
truthy and the secondary is not contacted when the primary resolves; on a
thrown primary, or a missing primary credential, the secondary is used when
configured; with neither credential the call fails with the configuration
error and contacts no provider; a non-empty result list renders as a
1-indexed newline-delimited list with each content truncated to 400
characters. -/
theorem search_web_fallback (zk tk : Option String) (zo tvo : SearchOutcome)
    (e : String) (results : List SearchResult) :
    (truthyKey zk = true → (executeSearchWeb zk tk zo tvo).zaiCalled = true) ∧
    (truthyKey zk = false → (executeSearchWeb zk tk zo tvo).zaiCalled = false) ∧
    (truthyKey zk = true → zo = SearchOutcome.ok results →
      (executeSearchWeb zk tk zo tvo).tavilyCalled = false ∧
      (executeSearchWeb zk tk zo tvo).result = renderSearchOutput results) ∧
    (truthyKey zk = true → zo = SearchOutcome.err e → truthyKey tk = true →
      (executeSearchWeb zk tk zo tvo).tavilyCalled = true) ∧
    (truthyKey zk = false → truthyKey tk = true →
      (executeSearchWeb zk tk zo tvo).tavilyCalled = true) ∧
    (truthyKey zk = false → truthyKey tk = false →
      executeSearchWeb zk tk zo tvo =
        ⟨⟨false, none, some "No search API configured (ZAI_API_KEY or TAVILY_API_KEY)"⟩,
         false, false⟩) ∧
    (results ≠ [] → renderSearchOutput results =
      ⟨true, some (String.intercalate "\n\n" (results.mapIdx fun i r =>
        "[" ++ toString (i + 1) ++ "] " ++ r.title ++
          (if r.date.getD "" = "" then "" else " (" ++ r.date.getD "" ++ ")") ++
          "\n" ++ r.url ++ "\n" ++ r.content.take 400)), none⟩) := by
  refine ⟨?_, ?_, ?_, ?_, ?_, ?_, ?_⟩
  · intro hz
    simp [executeSearchWeb, hz]
    repeat' split
    all_goals simp
  · intro hz
    simp [executeSearchWeb, hz]
    repeat' split
    all_goals simp
  · intro hz hok
    subst hok
    simp [executeSearchWeb, hz]
  · intro hz herr ht
    subst herr
    simp [executeSearchWeb, hz, ht]
    repeat' split
    all_goals simp
  · intro hz ht
    simp [executeSearchWeb, hz, ht]
    repeat' split
    all_goals simp
  · intro hz ht
    simp [executeSearchWeb, hz, ht]
  · intro hr
    have hlen : results.length ≠ 0 := by
      simpa [List.length_eq_zero] using hr
    have hfun : formatSearchResult = fun i r =>
        "[" ++ toString (i + 1) ++ "] " ++ r.title ++
          (if r.date.getD "" = "" then "" else " (" ++ r.date.getD "" ++ ")") ++
          "\n" ++ r.url ++ "\n" ++ r.content.take 400 := by
      funext i r
      simp [formatSearchResult]
    simp only [renderSearchOutput]
    rw [if_neg hlen, hfun]

/-- Witness for C2: index 5 on a 3-element history is rejected with the
bounds 0-2 in the message. -/
theorem delete_by_index_bounds_witness :
    (sampleState.recentMessages 5).length ≠ 0 ∧
    executeManage (some (fun _ _ => GResult.ok true)) none
        ⟨"delete_by_index", some 5, none⟩ 5 sampleState =
      (⟨false, none, some "Invalid index. Have 3 messages (0-2)"⟩, sampleState, []) :=
  ⟨by decide,
   (delete_by_index_bounds (fun _ _ => GResult.ok true) none 5 none 5 sampleState
      (by decide)).1 (by decide)⟩

/-- Witness for C3: a gateway returning false leaves the sample history
unchanged. -/
theorem delete_gateway_reconciliation_witness :
    (sampleState.recentMessages 5).length ≠ 0 ∧
    (0 : Int) ≤ (if (0 : Int) < 0 then ((sampleState.recentMessages 5).length : Int) + 0 else 0) ∧
    (if (0 : Int) < 0 then ((sampleState.recentMessages 5).length : Int) + 0 else 0) <
      ((sampleState.recentMessages 5).length : Int) ∧
    executeManage (some (fun _ _ => GResult.ok false)) none
        ⟨"delete_last", none, none⟩ 5 sampleState =
      (⟨false, none, some "Failed to delete (maybe already deleted or too old)"⟩,
       sampleState, [GCall.del 5 203]) :=
  ⟨by decide, by decide, by decide,
   (delete_gateway_reconciliation (fun _ _ => GResult.ok false) none 0 none none 5
      sampleState "x" (by decide) (by decide) (by decide)).1 rfl⟩

/-- Witness for C4: both delete forms produce the same state on the sample
history. -/
theorem delete_neg_one_equiv_witness :
    (sampleState.recentMessages 5).length ≠ 0 ∧
    (executeManage (some (fun _ _ => GResult.ok true)) none
        ⟨"delete_by_index", some (-1), none⟩ 5 sampleState).2.1 =
      (executeManage (some (fun _ _ => GResult.ok true)) none
        ⟨"delete_last", none, none⟩ 5 sampleState).2.1 :=
  ⟨by decide,
   (delete_neg_one_equiv (fun _ _ => GResult.ok true) none none none 5 sampleState
      (by decide)).2.2 rfl⟩

/-- Witness for C9: with neither key configured the call fails with the
configuration error. -/
theorem search_web_fallback_witness :
    truthyKey none = false ∧
    executeSearchWeb none none (SearchOutcome.ok [sampleResult])
        (SearchOutcome.ok [sampleResult]) =
      ⟨⟨false, none, some "No search API configured (ZAI_API_KEY or TAVILY_API_KEY)"⟩,
       false, false⟩ :=
  ⟨rfl,
   (search_web_fallback none none (SearchOutcome.ok [sampleResult])
      (SearchOutcome.ok [sampleResult]) "" [sampleResult]).2.2.2.2.2.1 rfl rfl⟩
